import Mathlib

/-!
Verification of the game-control state-aggregation engine
(`indra/llwindow/llgamecontrol.cpp`).

The definitions below are a shallow embedding of the C++ source:
  * signed 16-bit axis values are modelled as `Int` (all source
    computations that matter are clamped into `[-32768, 32767]`
    before being stored into `S16`, so the cast is exact),
  * the `U32` button mask and the `U64` resend period are modelled
    as `Nat` (with explicit `% 2^64` where the source multiplies),
  * `std::string` channel/action names are modelled as `List Char`.
-/

namespace GameControl

/-- `NUM_AXES` from the source. -/
def NUM_AXES : Nat := 6

/-- `NUM_BUTTONS` from the source. -/
def NUM_BUTTONS : Nat := 32

/-- The axis-negation rule from `LLGameControllerManager::onAxis`
(lines 529-542): for raw axes below the triggers the value is negated
with an offset of one so that `-32768` maps into the representable
positive range.  Source:
`if (value < 0) value = -(value+1); else if (value > 0) value = (-value)-1;`
(no write when `value == 0`). -/
def negateAxisValue (value : Int) : Int :=
  if value < 0 then -(value + 1)
  else if value > 0 then -value - 1
  else value

/-- Clamp to the signed 16-bit range, as done by
`std::min(std::max(axis, -32768), 32767)` in `computeFinalState` and
`getFlycamInputs`. -/
def clampS16 (x : Int) : Int := min (max x (-32768)) 32767

/-- The signal portion of `LLGameControl::State`: `mAxes[6]` (S16),
`mPrevAxes[6]` (S16) and the `mButtons` bitmask (U32). -/
structure State where
  axes : Fin 6 → Int
  prevAxes : Fin 6 → Int
  buttons : Nat
deriving DecidableEq

/-- The inputs read by `LLGameControllerManager::computeFinalState`:
the per-device accumulators (`mAxesAccumulator` is `S32`, here `Int`;
`mButtonAccumulator`), the `mExternalState` signal, and the
`g_translateAgentActions` flag. -/
structure MergeEnv where
  axesAccumulator : Fin 6 → Int
  buttonAccumulator : Nat
  externalAxes : Fin 6 → Int
  externalButtons : Nat
  translateAgentActions : Bool
deriving DecidableEq

/-- Final button mask computed in `computeFinalState` (lines 599-605):
the accumulated device mask, OR'd with the external mask only when
`g_translateAgentActions` is set. -/
def mergedButtons (env : MergeEnv) : Nat :=
  if env.translateAgentActions then env.buttonAccumulator ||| env.externalButtons
  else env.buttonAccumulator

/-- Per-axis merged value from `computeFinalState` (lines 612-623):
device-accumulated sum, plus the external axis only when
`g_translateAgentActions` is set, clamped to the S16 range. -/
def mergedAxis (env : MergeEnv) (i : Fin 6) : Int :=
  clampS16 (env.axesAccumulator i +
    if env.translateAgentActions then env.externalAxes i else 0)

/-- `LLGameControllerManager::computeFinalState` (lines 595-637) as a
pure function: given the accumulated environment, the previous final
state and the current `g_nextResendPeriod`, produce the new final
state and the new resend period.  The per-index loop of the source is
order-independent (each index is handled separately), so it is
expressed pointwise: when the clamped axis value differs from the
published one, the old published value is copied into `prevAxes` and
the period is zeroed; a button-mask difference also zeroes the period. -/
def computeFinalState (env : MergeEnv) (fs : State) (period : Nat) : State × Nat :=
  ({ axes := fun i => mergedAxis env i
   , prevAxes := fun i => if fs.axes i ≠ mergedAxis env i then fs.axes i else fs.prevAxes i
   , buttons := mergedButtons env },
   if ∃ i, fs.axes i ≠ mergedAxis env i then 0
   else if fs.buttons ≠ mergedButtons env then 0
   else period)

/-- `MSEC_PER_NSEC`(sic) from the source: nanoseconds per millisecond. -/
def MSEC_PER_NSEC : Nat := 1000000

/-- `FIRST_RESEND_PERIOD = 100 * MSEC_PER_NSEC` nanoseconds (100 ms). -/
def FIRST_RESEND_PERIOD : Nat := 100 * MSEC_PER_NSEC

/-- `RESEND_EXPANSION_RATE` from the source. -/
def RESEND_EXPANSION_RATE : Nat := 10

/-- Modulus of the source's `U64` period arithmetic. -/
def U64_MOD : Nat := 2 ^ 64

/-- The scheduler globals: `g_finalState`, `g_lastSend`,
`g_nextResendPeriod`. -/
structure SendState where
  finalState : State
  lastSend : Nat
  nextResendPeriod : Nat
deriving DecidableEq

/-- `LLGameControl::updateResendPeriod` (lines 1283-1305), called right
after a packet is sent: stamps `g_lastSend`; a zero period becomes
`FIRST_RESEND_PERIOD`, otherwise the period is multiplied by
`RESEND_EXPANSION_RATE` (U64 arithmetic) and — only on that branch —
`g_finalState.mPrevAxes` is overwritten with `mAxes`. -/
def updateResendPeriod (now : Nat) (s : SendState) : SendState :=
  if s.nextResendPeriod = 0 then
    { finalState := s.finalState
    , lastSend := now
    , nextResendPeriod := FIRST_RESEND_PERIOD }
  else
    { finalState := { axes := s.finalState.axes
                    , prevAxes := s.finalState.axes
                    , buttons := s.finalState.buttons }
    , lastSend := now
    , nextResendPeriod := s.nextResendPeriod * RESEND_EXPANSION_RATE % U64_MOD }

/-- One merge-then-send tick: `computeFinalStateAndCheckForChanges`
(which runs `computeFinalState` on `g_finalState` and
`g_nextResendPeriod`) followed by a transmit and
`updateResendPeriod`. -/
def mergeAndSend (env : MergeEnv) (now : Nat) (s : SendState) : SendState :=
  let r := computeFinalState env s.finalState s.nextResendPeriod
  updateResendPeriod now
    { finalState := r.1, lastSend := s.lastSend, nextResendPeriod := r.2 }

/-- Sample environment with a nonzero accumulated value on axis 1. -/
def sampleEnv : MergeEnv :=
  { axesAccumulator := fun j => if j = 1 then 100 else 0
  , buttonAccumulator := 0
  , externalAxes := fun _ => 0
  , externalButtons := 0
  , translateAgentActions := false }

/-- Sample all-zero environment. -/
def zeroEnv : MergeEnv :=
  { axesAccumulator := fun _ => 0
  , buttonAccumulator := 0
  , externalAxes := fun _ => 0
  , externalButtons := 0
  , translateAgentActions := false }

/-- Sample environment with accumulated buttons. -/
def sampleEnvButtons : MergeEnv :=
  { axesAccumulator := fun _ => 0
  , buttonAccumulator := 5
  , externalAxes := fun _ => 0
  , externalButtons := 0
  , translateAgentActions := false }

/-- The all-zero published state. -/
def zeroState : State := { axes := fun _ => 0, prevAxes := fun _ => 0, buttons := 0 }

/-- A scheduler state holding the zero state with zero resend period. -/
def zeroSend : SendState := { finalState := zeroState, lastSend := 0, nextResendPeriod := 0 }

/-- `LLGameControl::InputChannel::Type`. -/
inductive ChannelType
  | none
  | axis
  | button
deriving DecidableEq

/-- `LLGameControl::InputChannel`: field `mType`, field `mIndex` (a
`U8`, modelled as `Nat`) and field `mSign` (`S8`, modelled as `Int`;
in practice one of `-1`, `0`, `1`). -/
structure InputChannel where
  type : ChannelType
  index : Nat
  sign : Int
deriving DecidableEq

/-- A default-constructed `InputChannel`: `TYPE_NONE`, index `0`,
sign `0`. -/
def noneChannel : InputChannel :=
  { type := ChannelType.none, index := 0, sign := 0 }

/-- `strncmp(name.c_str(), p, strlen(p)) == 0`: the first argument is
the sought front part, the second the full name. -/
def listStartsWith : List Char → List Char → Bool
  | [], _ => true
  | _ :: _, [] => false
  | p :: ps, c :: cs => p == c && listStartsWith ps cs

/-- The digit test used by C `atoi`. -/
def isDigitChar (c : Char) : Bool := 48 ≤ c.toNat && c.toNat ≤ 57

/-- Accumulate leading decimal digits, as C `atoi` does after sign
handling. -/
def atoiDigits : List Char → Nat → Nat
  | c :: rest, acc =>
      if isDigitChar c then atoiDigits rest (acc * 10 + (c.toNat - 48)) else acc
  | [], acc => acc

/-- C `atoi` after leading whitespace has been skipped: an optional
sign followed by leading decimal digits. -/
def atoiSigned : List Char → Int
  | '-' :: rest => -(atoiDigits rest 0 : Int)
  | '+' :: rest => (atoiDigits rest 0 : Int)
  | l => (atoiDigits l 0 : Int)

/-- C `atoi` as used on the 1-2 character substrings here: skip
leading whitespace, then an optional sign and leading decimal digits
(overflow is unreachable at these lengths). -/
def atoi (l : List Char) : Int :=
  atoiSigned (l.dropWhile (fun c => c == ' ' || c == '\t' || c == '\n' ||
    c == '\x0b' || c == '\x0c' || c == '\r'))

/-- The implicit `int` → `U8` conversion applied when the `atoi`
result is stored into `mIndex`. -/
def toU8 (x : Int) : Nat := (x % 256).toNat

/-- `std::string::back()` (only ever applied to nonempty names in the
source; the default is irrelevant). -/
def listBack (l : List Char) : Char := l.getLast?.getD (Char.ofNat 0)

/-- `LLGameControl::getChannelByName` (lines 1232-1254): a name with
front `AXIS_` yields an axis channel whose index is `atoi` of the one
character at position 5 and whose sign is `-1` exactly when the last
character is `-` (else `+1`); a name with front `BUTTON_` yields a
button channel whose index is `atoi` of the up-to-two characters from
position 7; anything else yields the default (none) channel. -/
def getChannelByName (name : List Char) : InputChannel :=
  if listStartsWith ("AXIS_".toList) name then
    { type := ChannelType.axis
    , index := toU8 (atoi ((name.drop 5).take 1))
    , sign := if listBack name == '-' then -1 else 1 }
  else if listStartsWith ("BUTTON_".toList) name then
    { type := ChannelType.button
    , index := toU8 (atoi ((name.drop 7).take 2))
    , sign := 0 }
  else noneChannel

/-- `LLGameControl::AgentControlMode` (declared in the header):
`CONTROL_MODE_AVATAR`, `CONTROL_MODE_FLYCAM`, `CONTROL_MODE_NONE`. -/
inductive AgentControlMode
  | avatar
  | flycam
  | none
deriving DecidableEq

/-- `ENUM_AGENTCONTROLMODE_FLYCAM`. -/
def ENUM_AGENTCONTROLMODE_FLYCAM : List Char := "flycam".toList

/-- `ENUM_AGENTCONTROLMODE_NONE`. -/
def ENUM_AGENTCONTROLMODE_NONE : List Char := "none".toList

/-- `convertStringToAgentControlMode` (lines 329-337): `"none"` and
`"flycam"` map to their modes, every other string to the default
(`AVATAR`). -/
def convertStringToAgentControlMode (mode : List Char) : AgentControlMode :=
  if mode = ENUM_AGENTCONTROLMODE_NONE then AgentControlMode.none
  else if mode = ENUM_AGENTCONTROLMODE_FLYCAM then AgentControlMode.flycam
  else AgentControlMode.avatar

/-- `convertAgentControlModeToString` (lines 339-347): `NONE` and
`FLYCAM` map to their strings, every other mode to `LLStringUtil::null`
(the empty string). -/
def convertAgentControlModeToString (mode : AgentControlMode) : List Char :=
  if mode = AgentControlMode.none then ENUM_AGENTCONTROLMODE_NONE
  else if mode = AgentControlMode.flycam then ENUM_AGENTCONTROLMODE_FLYCAM
  else []

/-- `LLGameControl::AXIS_LEFTX` (SDL axis order). -/
def AXIS_LEFTX : Nat := 0

/-- `LLGameControl::AXIS_LEFTY`. -/
def AXIS_LEFTY : Nat := 1

/-- `LLGameControl::AXIS_RIGHTX`. -/
def AXIS_RIGHTX : Nat := 2

/-- `LLGameControl::AXIS_RIGHTY`. -/
def AXIS_RIGHTY : Nat := 3

/-- `LLGameControl::AXIS_TRIGGERLEFT` (`SDL_CONTROLLER_AXIS_TRIGGERLEFT`). -/
def AXIS_TRIGGERLEFT : Nat := 4

/-- `LLGameControl::AXIS_TRIGGERRIGHT`. -/
def AXIS_TRIGGERRIGHT : Nat := 5

/-- The `S16 axis` computed for one flycam channel in
`LLGameControllerManager::getFlycamInputs` (lines 832-851): a channel
whose index is a trigger uses the tied-trigger difference
(left-trigger accumulator minus right-trigger accumulator, negated
when the channel sits on the right trigger), any other channel reads
the accumulator at the channel's own index; both are clamped to S16.
The source indexes `mAxesAccumulator` unchecked; channel indexes at or
beyond `NUM_AXES` (never stored in `mFlycamChannels`) read 0 here. -/
def flycamAxisValue (acc : Fin 6 → Int) (channel : InputChannel) : Int :=
  if channel.index = AXIS_TRIGGERLEFT ∨ channel.index = AXIS_TRIGGERRIGHT then
    clampS16 ((acc 4 - acc 5) *
      (if channel.index = AXIS_TRIGGERRIGHT then -1 else 1))
  else if h : channel.index < 6 then clampS16 (acc ⟨channel.index, h⟩)
  else 0

/-- One normalized flycam input (lines 852-856): the S16 axis value
divided by 32767 when positive else 32768, times the channel sign.
The source computes this in `F32`; exact rationals stand in for the
float arithmetic. -/
def flycamInput (acc : Fin 6 → Int) (channel : InputChannel) : ℚ :=
  (flycamAxisValue acc channel : ℚ) /
    (if 0 < flycamAxisValue acc channel then 32767 else 32768) *
    (channel.sign : ℚ)

/-- The default `mFlycamChannels` built by
`initializeMappingsByDefault` (lines 474-483), in slot order: advance,
pan, rise, pitch, yaw, zoom. -/
def defaultFlycamChannels : List InputChannel :=
  [ { type := ChannelType.axis, index := AXIS_LEFTY, sign := 1 }
  , { type := ChannelType.axis, index := AXIS_LEFTX, sign := 1 }
  , { type := ChannelType.axis, index := AXIS_TRIGGERRIGHT, sign := 1 }
  , { type := ChannelType.axis, index := AXIS_RIGHTY, sign := -1 }
  , { type := ChannelType.axis, index := AXIS_RIGHTX, sign := 1 }
  , { type := ChannelType.none, index := 0, sign := 0 } ]

/-- `LLGameControllerManager::getFlycamInputs` (lines 821-858): one
normalized input per flycam channel, pushed in slot order. -/
def getFlycamInputs (acc : Fin 6 → Int) (channels : List InputChannel) : List ℚ :=
  channels.map (flycamInput acc)

/-- Accumulator state of the flycam example: left trigger 10000,
right trigger 3000, all other axes 0. -/
def triggerAcc : Fin 6 → Int :=
  fun i => if i = 4 then 10000 else if i = 5 then 3000 else 0

/-- The default "rise" flycam channel (slot 2 of
`mFlycamChannels`): the right trigger with positive sign. -/
def riseChannel : InputChannel :=
  { type := ChannelType.axis, index := AXIS_TRIGGERRIGHT, sign := 1 }

/-- `AGENT_CONTROL_AT_POS` (from `indra_constants.h`, not in this
tree; per the spec's "fixed bitmask vocabulary" each named agent
control is one bit). -/
def AGENT_CONTROL_AT_POS : Nat := 1 <<< 0

/-- `AGENT_CONTROL_AT_NEG`. -/
def AGENT_CONTROL_AT_NEG : Nat := 1 <<< 1

/-- `AGENT_CONTROL_LEFT_POS`. -/
def AGENT_CONTROL_LEFT_POS : Nat := 1 <<< 2

/-- `AGENT_CONTROL_LEFT_NEG`. -/
def AGENT_CONTROL_LEFT_NEG : Nat := 1 <<< 3

/-- `AGENT_CONTROL_UP_POS`. -/
def AGENT_CONTROL_UP_POS : Nat := 1 <<< 4

/-- `AGENT_CONTROL_UP_NEG`. -/
def AGENT_CONTROL_UP_NEG : Nat := 1 <<< 5

/-- `AGENT_CONTROL_PITCH_POS`. -/
def AGENT_CONTROL_PITCH_POS : Nat := 1 <<< 6

/-- `AGENT_CONTROL_PITCH_NEG`. -/
def AGENT_CONTROL_PITCH_NEG : Nat := 1 <<< 7

/-- `AGENT_CONTROL_YAW_POS`. -/
def AGENT_CONTROL_YAW_POS : Nat := 1 <<< 8

/-- `AGENT_CONTROL_YAW_NEG`. -/
def AGENT_CONTROL_YAW_NEG : Nat := 1 <<< 9

/-- `AGENT_CONTROL_FAST_AT`. -/
def AGENT_CONTROL_FAST_AT : Nat := 1 <<< 10

/-- `AGENT_CONTROL_FAST_LEFT`. -/
def AGENT_CONTROL_FAST_LEFT : Nat := 1 <<< 11

/-- `AGENT_CONTROL_FAST_UP`. -/
def AGENT_CONTROL_FAST_UP : Nat := 1 <<< 12

/-- `AGENT_CONTROL_FLY` (HACK-borrowed by `toggle_fly`). -/
def AGENT_CONTROL_FLY : Nat := 1 <<< 13

/-- `AGENT_CONTROL_STOP`. -/
def AGENT_CONTROL_STOP : Nat := 1 <<< 14

/-- `AGENT_CONTROL_NUDGE_AT_POS` (HACK-borrowed by `toggle_run`). -/
def AGENT_CONTROL_NUDGE_AT_POS : Nat := 1 <<< 19

/-- `AGENT_CONTROL_NUDGE_AT_NEG` (HACK-borrowed by `toggle_flycam`). -/
def AGENT_CONTROL_NUDGE_AT_NEG : Nat := 1 <<< 20

/-- `LLGameControl::BUTTON_LEFTSTICK` (SDL button order, see the
`getRemoteName` table). -/
def BUTTON_LEFTSTICK : Nat := 7

/-- `LLGameControl::BUTTON_LEFTSHOULDER`. -/
def BUTTON_LEFTSHOULDER : Nat := 9

/-- `LLGameControl::BUTTON_RIGHTSHOULDER`. -/
def BUTTON_RIGHTSHOULDER : Nat := 10

/-- `LLGameControl::BUTTON_DPAD_UP`. -/
def BUTTON_DPAD_UP : Nat := 11

/-- Modelled from the spec: the signed analog rows of the translator's
mapping after the constructor's `setAvailableActionMasks` (action-mask
table, lines 423-443) and the default `setMappings` (lines 456-470);
`LLGameControlTranslator` itself (`llgamecontroltranslator.cpp`) is
not in this tree.  Each base analog action (push, slide, jump, turn,
look) is expanded into a `+` and a `-` variant carrying the supplied
channel with opposite implied polarity; rows are (control-bit mask,
bound channel). -/
def defaultAnalogEntries : List (Nat × InputChannel) :=
  [ (AGENT_CONTROL_AT_POS ||| AGENT_CONTROL_FAST_AT,
      { type := ChannelType.axis, index := AXIS_LEFTY, sign := 1 })
  , (AGENT_CONTROL_AT_NEG ||| AGENT_CONTROL_FAST_AT,
      { type := ChannelType.axis, index := AXIS_LEFTY, sign := -1 })
  , (AGENT_CONTROL_LEFT_POS ||| AGENT_CONTROL_FAST_LEFT,
      { type := ChannelType.axis, index := AXIS_LEFTX, sign := 1 })
  , (AGENT_CONTROL_LEFT_NEG ||| AGENT_CONTROL_FAST_LEFT,
      { type := ChannelType.axis, index := AXIS_LEFTX, sign := -1 })
  , (AGENT_CONTROL_UP_POS ||| AGENT_CONTROL_FAST_UP,
      { type := ChannelType.axis, index := AXIS_TRIGGERLEFT, sign := 1 })
  , (AGENT_CONTROL_UP_NEG ||| AGENT_CONTROL_FAST_UP,
      { type := ChannelType.axis, index := AXIS_TRIGGERLEFT, sign := -1 })
  , (AGENT_CONTROL_YAW_POS,
      { type := ChannelType.axis, index := AXIS_RIGHTX, sign := 1 })
  , (AGENT_CONTROL_YAW_NEG,
      { type := ChannelType.axis, index := AXIS_RIGHTX, sign := -1 })
  , (AGENT_CONTROL_PITCH_POS,
      { type := ChannelType.axis, index := AXIS_RIGHTY, sign := 1 })
  , (AGENT_CONTROL_PITCH_NEG,
      { type := ChannelType.axis, index := AXIS_RIGHTY, sign := -1 }) ]

/-- Modelled from the spec: the binary rows of the translator's
default mapping (toggle_run, toggle_fly, toggle_flycam, stop), with
the HACK-borrowed control bits of the action-mask table. -/
def defaultBinaryEntries : List (Nat × InputChannel) :=
  [ (AGENT_CONTROL_NUDGE_AT_POS,
      { type := ChannelType.button, index := BUTTON_LEFTSHOULDER, sign := 0 })
  , (AGENT_CONTROL_FLY,
      { type := ChannelType.button, index := BUTTON_DPAD_UP, sign := 0 })
  , (AGENT_CONTROL_NUDGE_AT_NEG,
      { type := ChannelType.button, index := BUTTON_RIGHTSHOULDER, sign := 0 })
  , (AGENT_CONTROL_STOP,
      { type := ChannelType.button, index := BUTTON_LEFTSTICK, sign := 0 }) ]

/-- Strict positivity of an `Int`, as a `Bool`. -/
def intPos : Int → Bool
  | Int.ofNat (_ + 1) => true
  | _ => false

/-- Whether a channel type counts as mapped (anything but
`TYPE_NONE`). -/
def isMappedType : ChannelType → Bool
  | ChannelType.none => false
  | _ => true

/-- Modelled from the spec (§4.3): the analog half of the translator's
`computeFlagsFromState` — for every mapped analog action whose bound
axis value, multiplied by the channel sign, is strictly positive, OR
in that action's control bits.  Axes are the accumulator vector,
indexed by the channel's index. -/
def analogFlags (analog : List (Nat × InputChannel)) (axes : List Int) : Nat :=
  analog.foldl (fun flags e =>
    if isMappedType e.2.type && intPos (e.2.sign * axes.getD e.2.index 0)
    then flags ||| e.1 else flags) 0

/-- Modelled from the spec (§4.3): the binary half of
`computeFlagsFromState` — for every mapped binary action whose bound
button bit is currently set, OR in its control bits. -/
def binaryFlags (binary : List (Nat × InputChannel)) (buttons : Nat) : Nat :=
  binary.foldl (fun flags e =>
    if isMappedType e.2.type && buttons.testBit e.2.index
    then flags ||| e.1 else flags) 0

/-- Modelled from the spec (§4.3): the translator's
`computeFlagsFromState` over a mapping table split into its analog and
binary rows. -/
def computeFlagsFromState (analog binary : List (Nat × InputChannel))
    (axes : List Int) (buttons : Nat) : Nat :=
  analogFlags analog axes ||| binaryFlags binary buttons

/-- Modelled from the spec (§4.3): the axes half of the translator's
`computeStateFromFlags` — for every mapped analog action whose control
bits are all present in the flags, set the bound axis to full
deflection in the channel's sign direction (32767 for `+`, -32768 for
`-`). -/
def stateAxesFromFlags (analog : List (Nat × InputChannel)) (flags : Nat) : List Int :=
  analog.foldl (fun axes e =>
    if isMappedType e.2.type && (e.1 &&& flags == e.1) then
      axes.set e.2.index (if intPos e.2.sign then 32767 else -32768)
    else axes) [0, 0, 0, 0, 0, 0]

/-- Modelled from the spec (§4.3): the buttons half of
`computeStateFromFlags` — for every mapped binary action whose control
bits are all present in the flags, set the bound button bit. -/
def stateButtonsFromFlags (binary : List (Nat × InputChannel)) (flags : Nat) : Nat :=
  binary.foldl (fun buttons e =>
    if isMappedType e.2.type && (e.1 &&& flags == e.1) then
      buttons ||| (1 <<< e.2.index) else buttons) 0

/-- Modelled from the spec (§4.3): the translator's
`computeStateFromFlags`, producing the synthesized external state
(axes vector and button mask). -/
def computeStateFromFlags (analog binary : List (Nat × InputChannel))
    (flags : Nat) : List Int × Nat :=
  (stateAxesFromFlags analog flags, stateButtonsFromFlags binary flags)

/-- Full-deflection axis value representing an analog action that is
active positively (`some true`), negatively (`some false`), or
inactive (`none`). -/
def activationValue : Option Bool → Int
  | some true => 32767
  | some false => -32768
  | Option.none => 0

/-- A raw accumulated axes vector in which the five default analog
actions (push, slide, jump, turn, look — in that argument order) are
active per the given choices, laid out on their default axes
(LEFTX = slide, LEFTY = push, RIGHTX = turn, RIGHTY = look,
TRIGGERLEFT = jump). -/
def activationAxes (a0 a1 a2 a3 a4 : Option Bool) : List Int :=
  [activationValue a1, activationValue a0, activationValue a3,
   activationValue a4, activationValue a2, 0]

/-- A button mask in which the four default binary actions
(toggle_run, toggle_fly, toggle_flycam, stop — in that argument order)
are pressed per the given choices, on their default buttons. -/
def activationButtons (b0 b1 b2 b3 : Bool) : Nat :=
  (if b0 then 1 <<< BUTTON_LEFTSHOULDER else 0) |||
  (if b1 then 1 <<< BUTTON_DPAD_UP else 0) |||
  (if b2 then 1 <<< BUTTON_RIGHTSHOULDER else 0) |||
  (if b3 then 1 <<< BUTTON_LEFTSTICK else 0)

/-- Support mask of every analog control-bit mask (bits 0-12). -/
def AMASK : Nat := 8191

/-- Support mask of every binary control-bit mask (FLY, STOP and the
two NUDGE_AT HACK bits). -/
def BMASK : Nat := (1 <<< 13) ||| (1 <<< 14) ||| (1 <<< 19) ||| (1 <<< 20)

/-- The three possible activation states of one analog action. -/
def allOptionBool : List (Option Bool) := [Option.none, some false, some true]

/-- One analog round-trip instance, as a Boolean check. -/
def analogCheck (a0 a1 a2 a3 a4 : Option Bool) : Bool :=
  analogFlags defaultAnalogEntries
      (stateAxesFromFlags defaultAnalogEntries
        (analogFlags defaultAnalogEntries (activationAxes a0 a1 a2 a3 a4))) ==
    analogFlags defaultAnalogEntries (activationAxes a0 a1 a2 a3 a4)

/-- The `mapping.find(':')` split of one comma-piece in the static
`setMappings` helper (lines 726-734): a pair is recorded only when the
colon exists at a position strictly greater than 0; the key is the
part before it, the value the part after. -/
def splitPair (piece : List Char) : Option (List Char × List Char) :=
  match piece.findIdx? (fun c => c == ':') with
  | some pos =>
      if 0 < pos then some (piece.take pos, piece.drop (pos + 1)) else Option.none
  | Option.none => Option.none

/-- The `pairs` map built by `setMappings` from one serialized mapping
string: `LLStringOps::splitString` (whose implementation is not in
this tree) splits at commas per the spec's comma-separated
`action:channel` format, and each piece with a well-placed colon
contributes a pair. -/
def parsePairs (mappings : List Char) : List (List Char × List Char) :=
  (mappings.splitOn ',').filterMap splitPair

/-- Lookup in the `pairs` map: `std::map::operator[]` overwrites, so
the last piece with a given key wins. -/
def lookupPairs (pairs : List (List Char × List Char)) (key : List Char) :
    Option (List Char) :=
  ((pairs.filter (fun p => p.1 == key)).getLast?).map Prod.snd

/-- The channel the `setMappings` loop (lines 738-751) passes to
`updateMap` for one action: the parsed channel when the action appears
among the pairs and its channel is none or of the requested type,
otherwise the none channel. -/
def mappedChannelFor (pairs : List (List Char × List Char))
    (action : List Char) (type : ChannelType) : InputChannel :=
  match lookupPairs pairs action with
  | some value =>
      let channel := getChannelByName value
      if channel.type = ChannelType.none ∨ channel.type = type then channel
      else noneChannel
  | Option.none => noneChannel

/-- `mAnalogActions` (constructor line 399), by position. -/
def analogActionName : Fin 5 → List Char
  | 0 => "push".toList
  | 1 => "slide".toList
  | 2 => "jump".toList
  | 3 => "turn".toList
  | 4 => "look".toList

/-- `mBinaryActions` (line 400), by position. -/
def binaryActionName : Fin 4 → List Char
  | 0 => "toggle_run".toList
  | 1 => "toggle_fly".toList
  | 2 => "toggle_flycam".toList
  | 3 => "stop".toList

/-- `mFlycamActions` (line 401), by position. -/
def flycamActionName : Fin 6 → List Char
  | 0 => "advance".toList
  | 1 => "pan".toList
  | 2 => "rise".toList
  | 3 => "pitch".toList
  | 4 => "yaw".toList
  | 5 => "zoom".toList

/-- The mapping state mutated by the three `set*Mappings` setters: the
channel bound to each analog base action, to each binary action, and
to each flycam slot.  The translator's internal expansion of an analog
base binding into its `+` and `-` halves is represented by keeping the
base channel; a none channel means unbound. -/
structure ManagerMappings where
  analogChannels : Fin 5 → InputChannel
  binaryChannels : Fin 4 → InputChannel
  flycamChannels : Fin 6 → InputChannel
deriving DecidableEq

/-- The default mappings installed by `initializeMappingsByDefault`
(lines 449-484): analog and binary bindings from `agent_defaults`,
flycam slots from the default flycam table. -/
def defaultManagerMappings : ManagerMappings :=
  { analogChannels := fun k =>
      match k with
      | 0 => { type := ChannelType.axis, index := AXIS_LEFTY, sign := 1 }
      | 1 => { type := ChannelType.axis, index := AXIS_LEFTX, sign := 1 }
      | 2 => { type := ChannelType.axis, index := AXIS_TRIGGERLEFT, sign := 1 }
      | 3 => { type := ChannelType.axis, index := AXIS_RIGHTX, sign := 1 }
      | 4 => { type := ChannelType.axis, index := AXIS_RIGHTY, sign := 1 }
  , binaryChannels := fun k =>
      match k with
      | 0 => { type := ChannelType.button, index := BUTTON_LEFTSHOULDER, sign := 0 }
      | 1 => { type := ChannelType.button, index := BUTTON_DPAD_UP, sign := 0 }
      | 2 => { type := ChannelType.button, index := BUTTON_RIGHTSHOULDER, sign := 0 }
      | 3 => { type := ChannelType.button, index := BUTTON_LEFTSTICK, sign := 0 }
  , flycamChannels := fun k => defaultFlycamChannels.getD k noneChannel }

/-- `setAnalogMappings` (lines 754-761): run `setMappings` over the
analog actions with the axis channel type. -/
def setAnalogMappings (m : ManagerMappings) (mappings : List Char) : ManagerMappings :=
  { m with analogChannels := fun k =>
      mappedChannelFor (parsePairs mappings) (analogActionName k) ChannelType.axis }

/-- `setBinaryMappings` (lines 763-770). -/
def setBinaryMappings (m : ManagerMappings) (mappings : List Char) : ManagerMappings :=
  { m with binaryChannels := fun k =>
      mappedChannelFor (parsePairs mappings) (binaryActionName k) ChannelType.button }

/-- `setFlycamMappings` (lines 772-779). -/
def setFlycamMappings (m : ManagerMappings) (mappings : List Char) : ManagerMappings :=
  { m with flycamChannels := fun k =>
      mappedChannelFor (parsePairs mappings) (flycamActionName k) ChannelType.axis }

/-- Modelled from the spec (§4.3): the translator's `getMappedFlags`
(implementation not in this tree) is the OR of the control bits of
every analog/binary action that currently has a non-none channel
bound; an analog base binding maps both of its signed variants, and
flycam bindings carry no control bits. -/
def getMappedFlags (m : ManagerMappings) : Nat :=
  (if (m.analogChannels 0).type ≠ ChannelType.none then
    AGENT_CONTROL_AT_POS ||| AGENT_CONTROL_AT_NEG ||| AGENT_CONTROL_FAST_AT else 0) |||
  (if (m.analogChannels 1).type ≠ ChannelType.none then
    AGENT_CONTROL_LEFT_POS ||| AGENT_CONTROL_LEFT_NEG ||| AGENT_CONTROL_FAST_LEFT else 0) |||
  (if (m.analogChannels 2).type ≠ ChannelType.none then
    AGENT_CONTROL_UP_POS ||| AGENT_CONTROL_UP_NEG ||| AGENT_CONTROL_FAST_UP else 0) |||
  (if (m.analogChannels 3).type ≠ ChannelType.none then
    AGENT_CONTROL_YAW_POS ||| AGENT_CONTROL_YAW_NEG else 0) |||
  (if (m.analogChannels 4).type ≠ ChannelType.none then
    AGENT_CONTROL_PITCH_POS ||| AGENT_CONTROL_PITCH_NEG else 0) |||
  (if (m.binaryChannels 0).type ≠ ChannelType.none then AGENT_CONTROL_NUDGE_AT_POS else 0) |||
  (if (m.binaryChannels 1).type ≠ ChannelType.none then AGENT_CONTROL_FLY else 0) |||
  (if (m.binaryChannels 2).type ≠ ChannelType.none then AGENT_CONTROL_NUDGE_AT_NEG else 0) |||
  (if (m.binaryChannels 3).type ≠ ChannelType.none then AGENT_CONTROL_STOP else 0)

/-- The number of actions (analog bases, binary actions and flycam
slots) that end up bound to a non-none channel. -/
def mappedActionCount (m : ManagerMappings) : Nat :=
  (if (m.analogChannels 0).type ≠ ChannelType.none then 1 else 0) +
  (if (m.analogChannels 1).type ≠ ChannelType.none then 1 else 0) +
  (if (m.analogChannels 2).type ≠ ChannelType.none then 1 else 0) +
  (if (m.analogChannels 3).type ≠ ChannelType.none then 1 else 0) +
  (if (m.analogChannels 4).type ≠ ChannelType.none then 1 else 0) +
  (if (m.binaryChannels 0).type ≠ ChannelType.none then 1 else 0) +
  (if (m.binaryChannels 1).type ≠ ChannelType.none then 1 else 0) +
  (if (m.binaryChannels 2).type ≠ ChannelType.none then 1 else 0) +
  (if (m.binaryChannels 3).type ≠ ChannelType.none then 1 else 0) +
  (if (m.flycamChannels 0).type ≠ ChannelType.none then 1 else 0) +
  (if (m.flycamChannels 1).type ≠ ChannelType.none then 1 else 0) +
  (if (m.flycamChannels 2).type ≠ ChannelType.none then 1 else 0) +
  (if (m.flycamChannels 3).type ≠ ChannelType.none then 1 else 0) +
  (if (m.flycamChannels 4).type ≠ ChannelType.none then 1 else 0) +
  (if (m.flycamChannels 5).type ≠ ChannelType.none then 1 else 0)

/-- The mapping-restore logic of `LLGameControl::loadFromSettings`
(lines 1344-1362): when all three stored strings are empty (absent
settings load as empty) the defaults are installed directly; otherwise
the three setters run, and when afterwards no action is mapped
(`getMappedFlags() == 0`) the defaults are installed; no error is
reported in either case. -/
def loadMappingsFromSettings (m : ManagerMappings)
    (analogMappings binaryMappings flycamMappings : List Char) : ManagerMappings :=
  if analogMappings = [] ∧ binaryMappings = [] ∧ flycamMappings = [] then
    defaultManagerMappings
  else
    let m2 := setFlycamMappings
      (setBinaryMappings (setAnalogMappings m analogMappings) binaryMappings)
      flycamMappings
    if getMappedFlags m2 = 0 then defaultManagerMappings else m2

/-- Helper: when the published state already agrees with the merged
environment, `computeFinalState` changes nothing and preserves the
resend period. -/
theorem computeFinalState_no_change (env : MergeEnv) (fs : State) (p : Nat)
    (hb : fs.buttons = mergedButtons env)
    (ha : ∀ i, fs.axes i = mergedAxis env i) :
    computeFinalState env fs p =
      ({ axes := fun i => mergedAxis env i
       , prevAxes := fs.prevAxes
       , buttons := mergedButtons env }, p) := by
  simp [computeFinalState, ha, hb]

/-- Helper: when some axis has changed, `computeFinalState` zeroes the
resend period, records the old published value in `prevAxes`, and
publishes the merged values. -/
theorem computeFinalState_axis_change (env : MergeEnv) (fs : State) (p : Nat)
    (i : Fin 6) (hchange : fs.axes i ≠ mergedAxis env i) :
    (computeFinalState env fs p).2 = 0 ∧
    (computeFinalState env fs p).1.prevAxes i = fs.axes i ∧
    ((computeFinalState env fs p).1.axes = fun j => mergedAxis env j) ∧
    (computeFinalState env fs p).1.buttons = mergedButtons env := by
  have hex : ∃ j, fs.axes j ≠ mergedAxis env j := ⟨i, hchange⟩
  simp [computeFinalState, hex, hchange]

/-- C1 (counterexample): the storage negation rule is *not* an
involution on the whole S16 range: `-1` negates to `0`, which negates
to `0`, not back to `-1`. -/
theorem negateAxisValue_not_involutive_at_neg_one :
    negateAxisValue (negateAxisValue (-1)) = 0 ∧ (0 : Int) ≠ -1 := by
  constructor
  · decide
  · decide

/-- C1 (amended): for every raw signed 16-bit value `v` other than
`-1`, applying the storage negation rule twice yields `v` exactly;
moreover one application stays inside the S16 range (in particular the
boundary case `v = -32768` does not overflow: it maps to `32767`). -/
theorem negateAxisValue_round_trip (v : Int)
    (h1 : -32768 ≤ v) (h2 : v ≤ 32767) (h3 : v ≠ -1) :
    negateAxisValue (negateAxisValue v) = v ∧
    -32768 ≤ negateAxisValue v ∧ negateAxisValue v ≤ 32767 ∧
    negateAxisValue (-32768) = 32767 := by
  unfold negateAxisValue
  split_ifs <;> norm_num <;> omega

/-- C1 witness: the amended round trip holds at the boundary value
`v = -32768`. -/
theorem negateAxisValue_round_trip_witness :
    negateAxisValue (negateAxisValue (-32768)) = -32768 ∧
    -32768 ≤ negateAxisValue (-32768) ∧ negateAxisValue (-32768) ≤ 32767 ∧
    negateAxisValue (-32768) = 32767 :=
  negateAxisValue_round_trip (-32768) (by decide) (by decide) (by decide)

/-- C2: for the sequence [axis change merged, send, no-change resend]:
after `computeFinalState` records a changed clamped axis and the first
send's `updateResendPeriod` runs, `prevAxes` at that axis still holds
the pre-change published value (and the period is the 100 ms base);
after the second send with no further change, `prevAxes` equals the
current `axes`. -/
theorem prevAxes_update_rule (env : MergeEnv) (s : SendState) (i : Fin 6) (n1 n2 : Nat)
    (hchange : s.finalState.axes i ≠ mergedAxis env i) :
    (mergeAndSend env n1 s).finalState.prevAxes i = s.finalState.axes i ∧
    (mergeAndSend env n1 s).nextResendPeriod = FIRST_RESEND_PERIOD ∧
    (mergeAndSend env n2 (mergeAndSend env n1 s)).finalState.prevAxes =
      (mergeAndSend env n2 (mergeAndSend env n1 s)).finalState.axes := by
  have hex : ∃ j, s.finalState.axes j ≠ mergedAxis env j := ⟨i, hchange⟩
  have hfirst : mergeAndSend env n1 s =
      { finalState :=
          { axes := fun j => mergedAxis env j
          , prevAxes := fun j =>
              if s.finalState.axes j ≠ mergedAxis env j then s.finalState.axes j
              else s.finalState.prevAxes j
          , buttons := mergedButtons env }
      , lastSend := n1
      , nextResendPeriod := FIRST_RESEND_PERIOD } := by
    simp [mergeAndSend, computeFinalState, updateResendPeriod, hex]
  refine ⟨?_, ?_, ?_⟩
  · rw [hfirst]
    simp [hchange]
  · rw [hfirst]
  · rw [hfirst]
    simp [mergeAndSend, computeFinalState, updateResendPeriod,
      FIRST_RESEND_PERIOD, MSEC_PER_NSEC]

/-- C2 witness: the sequence at a concrete accumulator change on
axis 1 (0 → 100). -/
theorem prevAxes_update_rule_witness :
    zeroSend.finalState.axes 1 ≠ mergedAxis sampleEnv 1 ∧
    ((mergeAndSend sampleEnv 7 zeroSend).finalState.prevAxes 1 =
        zeroSend.finalState.axes 1 ∧
      (mergeAndSend sampleEnv 7 zeroSend).nextResendPeriod = FIRST_RESEND_PERIOD ∧
      (mergeAndSend sampleEnv 9 (mergeAndSend sampleEnv 7 zeroSend)).finalState.prevAxes =
        (mergeAndSend sampleEnv 9 (mergeAndSend sampleEnv 7 zeroSend)).finalState.axes) :=
  ⟨by decide, prevAxes_update_rule sampleEnv zeroSend 1 7 9 (by decide)⟩

/-- C3: resend backoff.  Starting from a zero resend period and a
published state in sync with the environment, three consecutive
no-change merge-and-send ticks leave resend periods of 100 ms, 1000 ms
and 10000 ms (the send on a zero period installs the 100 ms base, each
later no-change send multiplies by 10); and any change detected during
a merge (button mask or some clamped axis differing from the published
state) zeroes the period regardless of its current value. -/
theorem resend_backoff (env : MergeEnv) (s : SendState) (n1 n2 n3 : Nat)
    (hp : s.nextResendPeriod = 0)
    (hb : s.finalState.buttons = mergedButtons env)
    (ha : ∀ i, s.finalState.axes i = mergedAxis env i)
    (env2 : MergeEnv) (fs2 : State) (p2 : Nat)
    (hchange : fs2.buttons ≠ mergedButtons env2 ∨ ∃ i, fs2.axes i ≠ mergedAxis env2 i) :
    (mergeAndSend env n1 s).nextResendPeriod = 100 * MSEC_PER_NSEC ∧
    (mergeAndSend env n2 (mergeAndSend env n1 s)).nextResendPeriod =
      1000 * MSEC_PER_NSEC ∧
    (mergeAndSend env n3 (mergeAndSend env n2 (mergeAndSend env n1 s))).nextResendPeriod =
      10000 * MSEC_PER_NSEC ∧
    (computeFinalState env2 fs2 p2).2 = 0 := by
  have h1 : mergeAndSend env n1 s =
      { finalState :=
          { axes := fun i => mergedAxis env i
          , prevAxes := s.finalState.prevAxes
          , buttons := mergedButtons env }
      , lastSend := n1
      , nextResendPeriod := FIRST_RESEND_PERIOD } := by
    rw [mergeAndSend, computeFinalState_no_change env s.finalState s.nextResendPeriod hb ha]
    simp [updateResendPeriod, hp]
  have h2 : mergeAndSend env n2 (mergeAndSend env n1 s) =
      { finalState :=
          { axes := fun i => mergedAxis env i
          , prevAxes := fun i => mergedAxis env i
          , buttons := mergedButtons env }
      , lastSend := n2
      , nextResendPeriod := 1000 * MSEC_PER_NSEC } := by
    rw [h1, mergeAndSend,
      computeFinalState_no_change env
        { axes := fun i => mergedAxis env i
        , prevAxes := s.finalState.prevAxes
        , buttons := mergedButtons env } FIRST_RESEND_PERIOD rfl (fun i => rfl),
      updateResendPeriod]
    norm_num [FIRST_RESEND_PERIOD, MSEC_PER_NSEC, RESEND_EXPANSION_RATE, U64_MOD]
  have h3 : (mergeAndSend env n3
      (mergeAndSend env n2 (mergeAndSend env n1 s))).nextResendPeriod =
      10000 * MSEC_PER_NSEC := by
    rw [h2, mergeAndSend,
      computeFinalState_no_change env
        { axes := fun i => mergedAxis env i
        , prevAxes := fun i => mergedAxis env i
        , buttons := mergedButtons env } (1000 * MSEC_PER_NSEC) rfl (fun i => rfl),
      updateResendPeriod]
    norm_num [MSEC_PER_NSEC, RESEND_EXPANSION_RATE, U64_MOD]
  refine ⟨by rw [h1]; rfl, by rw [h2], h3, ?_⟩
  rcases hchange with hbt | hax
  · by_cases hex : ∃ i, fs2.axes i ≠ mergedAxis env2 i
    · simp [computeFinalState, hex]
    · simp [computeFinalState, hex, hbt]
  · simp [computeFinalState, hax]

/-- C3 witness: backoff chain from the idle zero state, with a change
(axis 1 of `sampleEnv`) zeroing a nonzero period. -/
theorem resend_backoff_witness :
    (zeroSend.nextResendPeriod = 0 ∧
      zeroSend.finalState.buttons = mergedButtons zeroEnv ∧
      (zeroState.buttons ≠ mergedButtons sampleEnv ∨
        ∃ i, zeroState.axes i ≠ mergedAxis sampleEnv i)) ∧
    ((mergeAndSend zeroEnv 1 zeroSend).nextResendPeriod = 100 * MSEC_PER_NSEC ∧
      (mergeAndSend zeroEnv 2 (mergeAndSend zeroEnv 1 zeroSend)).nextResendPeriod =
        1000 * MSEC_PER_NSEC ∧
      (mergeAndSend zeroEnv 3 (mergeAndSend zeroEnv 2
        (mergeAndSend zeroEnv 1 zeroSend))).nextResendPeriod =
        10000 * MSEC_PER_NSEC ∧
      (computeFinalState sampleEnv zeroState 12345).2 = 0) :=
  ⟨⟨by decide, by decide, by decide⟩,
    resend_backoff zeroEnv zeroSend 1 2 3 (by decide) (by decide)
      (fun i => by revert i; decide) sampleEnv zeroState 12345 (by decide)⟩

/-- C4: `computeFinalState` publishes the accumulated device button
mask, OR-ing in the external buttons exactly when the
translate-agent-actions flag is enabled; and whenever the resulting
mask differs from the previously published mask the resend period is
zeroed. -/
theorem button_merge (env : MergeEnv) (fs : State) (p : Nat)
    (env2 : MergeEnv) (fs2 : State) (p2 : Nat)
    (hdiff : mergedButtons env2 ≠ fs2.buttons) :
    (computeFinalState env fs p).1.buttons = mergedButtons env ∧
    (env.translateAgentActions = true →
      (computeFinalState env fs p).1.buttons =
        env.buttonAccumulator ||| env.externalButtons) ∧
    (env.translateAgentActions = false →
      (computeFinalState env fs p).1.buttons = env.buttonAccumulator) ∧
    (computeFinalState env2 fs2 p2).2 = 0 := by
  refine ⟨rfl, ?_, ?_, ?_⟩
  · intro ht
    simp [computeFinalState, mergedButtons, ht]
  · intro ht
    simp [computeFinalState, mergedButtons, ht]
  · by_cases hex : ∃ i, fs2.axes i ≠ mergedAxis env2 i
    · simp [computeFinalState, hex]
    · simp [computeFinalState, hex, Ne.symm hdiff]

/-- C4 witness: merging buttons `5` over the zero state. -/
theorem button_merge_witness :
    mergedButtons sampleEnvButtons ≠ zeroState.buttons ∧
    ((computeFinalState sampleEnvButtons zeroState 777).1.buttons =
        mergedButtons sampleEnvButtons ∧
      (sampleEnvButtons.translateAgentActions = true →
        (computeFinalState sampleEnvButtons zeroState 777).1.buttons =
          sampleEnvButtons.buttonAccumulator ||| sampleEnvButtons.externalButtons) ∧
      (sampleEnvButtons.translateAgentActions = false →
        (computeFinalState sampleEnvButtons zeroState 777).1.buttons =
          sampleEnvButtons.buttonAccumulator) ∧
      (computeFinalState sampleEnvButtons zeroState 777).2 = 0) :=
  ⟨by decide,
    button_merge sampleEnvButtons zeroState 777 sampleEnvButtons zeroState 777 (by decide)⟩

/-- C5: each merged final axis is the accumulated device sum plus the
external value (only under the translate flag), clamped to
`[-32768, 32767]`; clamping leaves in-range values unchanged and sends
out-of-range values to exactly `-32768` or `32767`. -/
theorem axis_merge_clamp (env : MergeEnv) (fs : State) (p : Nat) (i : Fin 6)
    (x y z : Int)
    (hx1 : -32768 ≤ x) (hx2 : x ≤ 32767) (hy : y < -32768) (hz : 32767 < z) :
    (computeFinalState env fs p).1.axes i =
      clampS16 (env.axesAccumulator i +
        if env.translateAgentActions then env.externalAxes i else 0) ∧
    clampS16 x = x ∧ clampS16 y = -32768 ∧ clampS16 z = 32767 := by
  refine ⟨rfl, ?_, ?_, ?_⟩ <;>
    simp only [clampS16, min_def, max_def] <;> split_ifs <;> omega

/-- C5 witness: concrete in-range and out-of-range sums. -/
theorem axis_merge_clamp_witness :
    ((-32768 : Int) ≤ 12345 ∧ (12345 : Int) ≤ 32767 ∧
      (-40000 : Int) < -32768 ∧ (32767 : Int) < 70000) ∧
    ((computeFinalState sampleEnv zeroState 0).1.axes 1 =
        clampS16 (sampleEnv.axesAccumulator 1 +
          if sampleEnv.translateAgentActions then sampleEnv.externalAxes 1 else 0) ∧
      clampS16 12345 = 12345 ∧
      clampS16 (-40000) = -32768 ∧
      clampS16 70000 = 32767) :=
  ⟨⟨by decide, by decide, by decide, by decide⟩,
    axis_merge_clamp sampleEnv zeroState 0 1 12345 (-40000) 70000
      (by decide) (by decide) (by decide) (by decide)⟩

/-- C6 (counterexample): a string that matches neither form of the
claimed grammar does *not* necessarily parse to the none channel:
`"AXIS_X"` (no digit, no sign) parses to an axis channel with index 0
and sign +1. -/
theorem getChannelByName_malformed_not_none :
    getChannelByName ("AXIS_X".toList) =
      { type := ChannelType.axis, index := 0, sign := 1 } ∧
    getChannelByName ("AXIS_X".toList) ≠ noneChannel := by
  constructor <;> decide

/-- C6 (amended): well-formed names `AXIS_<digit>`, `AXIS_<digit>+`,
`AXIS_<digit>-` and `BUTTON_<1-2 digits>` parse to the corresponding
axis/button channels (sign defaults to `+`), and every name that
starts with neither `AXIS_` nor `BUTTON_` parses to the none channel;
but a name starting with either of those two heads is parsed leniently
(index via `atoi`, sign from the last character) rather than mapped to
the none channel. -/
theorem getChannelByName_grammar :
    (∀ d : Fin 10,
      getChannelByName ("AXIS_".toList ++ [Char.ofNat (48 + (d : Nat))]) =
        { type := ChannelType.axis, index := (d : Nat), sign := 1 } ∧
      getChannelByName ("AXIS_".toList ++ [Char.ofNat (48 + (d : Nat)), '+']) =
        { type := ChannelType.axis, index := (d : Nat), sign := 1 } ∧
      getChannelByName ("AXIS_".toList ++ [Char.ofNat (48 + (d : Nat)), '-']) =
        { type := ChannelType.axis, index := (d : Nat), sign := -1 }) ∧
    (∀ n : Nat, n < 100 →
      getChannelByName ("BUTTON_".toList ++ Nat.toDigits 10 n) =
        { type := ChannelType.button, index := n, sign := 0 }) ∧
    (∀ name : List Char,
      listStartsWith ("AXIS_".toList) name = false →
      listStartsWith ("BUTTON_".toList) name = false →
      getChannelByName name = noneChannel) := by
  refine ⟨by decide, by decide, ?_⟩
  intro name h1 h2
  simp at h1 h2
  simp [getChannelByName, h1, h2]

/-- C6 witness: `BUTTON_17` parses to button 17 and `"hello"` parses
to the none channel. -/
theorem getChannelByName_grammar_witness :
    ((17 : Nat) < 100 ∧
      listStartsWith ("AXIS_".toList) ("hello".toList) = false ∧
      listStartsWith ("BUTTON_".toList) ("hello".toList) = false) ∧
    (getChannelByName ("BUTTON_".toList ++ Nat.toDigits 10 17) =
        { type := ChannelType.button, index := 17, sign := 0 } ∧
      getChannelByName ("hello".toList) = noneChannel) :=
  ⟨⟨by decide, by decide, by decide⟩,
    ⟨getChannelByName_grammar.2.1 17 (by decide),
      getChannelByName_grammar.2.2 ("hello".toList) (by decide) (by decide)⟩⟩

/-- C10: `convertStringToAgentControlMode` inverts
`convertAgentControlModeToString` on every mode; `AVATAR` serializes
to the empty string (not `"avatar"`); and every input string other
than `"none"` and `"flycam"` — including `"avatar"` and the empty
string — deserializes to `AVATAR`. -/
theorem agentControlMode_round_trip :
    (∀ m, convertStringToAgentControlMode (convertAgentControlModeToString m) = m) ∧
    convertAgentControlModeToString AgentControlMode.avatar = [] ∧
    (∀ s : List Char,
      s ≠ ENUM_AGENTCONTROLMODE_NONE → s ≠ ENUM_AGENTCONTROLMODE_FLYCAM →
      convertStringToAgentControlMode s = AgentControlMode.avatar) ∧
    convertStringToAgentControlMode ("avatar".toList) = AgentControlMode.avatar ∧
    convertStringToAgentControlMode [] = AgentControlMode.avatar := by
  refine ⟨?_, by decide, ?_, by decide, by decide⟩
  · intro m
    cases m <;> decide
  · intro s h1 h2
    simp [convertStringToAgentControlMode, h1, h2]

/-- C10 witness: the non-reserved string `"avatar"` deserializes to
`AVATAR`. -/
theorem agentControlMode_round_trip_witness :
    ("avatar".toList ≠ ENUM_AGENTCONTROLMODE_NONE ∧
      "avatar".toList ≠ ENUM_AGENTCONTROLMODE_FLYCAM) ∧
    convertStringToAgentControlMode ("avatar".toList) = AgentControlMode.avatar :=
  ⟨⟨by decide, by decide⟩,
    agentControlMode_round_trip.2.2.1 ("avatar".toList) (by decide) (by decide)⟩

/-- C7 (counterexample): with left-trigger accumulated 10000 and
right-trigger accumulated 3000, the "rise" output under the default
flycam mapping (rise bound to the *right* trigger with sign +1) is
`-7000/32768`, not approximately `7000/32767` scaled by the channel
sign (`+1`): the sign and the divisor both differ. -/
theorem flycam_rise_example_fails :
    (getFlycamInputs triggerAcc defaultFlycamChannels).get? 2 =
      some (-(7000 / 32768 : ℚ)) ∧
    -(7000 / 32768 : ℚ) ≠ (7000 / 32767 : ℚ) * 1 := by
  constructor
  · simp [getFlycamInputs, defaultFlycamChannels, flycamInput, flycamAxisValue,
      triggerAcc, clampS16, AXIS_LEFTX, AXIS_LEFTY, AXIS_RIGHTX, AXIS_RIGHTY,
      AXIS_TRIGGERLEFT, AXIS_TRIGGERRIGHT]
    norm_num
  · norm_num

/-- C7 (amended): a flycam channel bound to a trigger axis outputs the
tied value (left-trigger accumulated minus right-trigger accumulated,
negated when the channel is defined on the right trigger), clamped
then normalized by dividing by 32767 if positive or 32768 if negative
and multiplied by the channel's sign.  In particular, with
left-trigger 10000 and right-trigger 3000, the default "rise" channel
(defined on the right trigger, sign +1) outputs `-7000/32768`; the
value `7000/32767` arises only for a rise channel defined on the left
trigger. -/
theorem flycam_trigger_inputs (acc : Fin 6 → Int) (ch : InputChannel)
    (h : ch.index = AXIS_TRIGGERLEFT ∨ ch.index = AXIS_TRIGGERRIGHT) :
    flycamInput acc ch =
      (clampS16 ((acc 4 - acc 5) *
          (if ch.index = AXIS_TRIGGERRIGHT then -1 else 1)) : ℚ) /
        (if 0 < clampS16 ((acc 4 - acc 5) *
            (if ch.index = AXIS_TRIGGERRIGHT then -1 else 1))
          then 32767 else 32768) * (ch.sign : ℚ) ∧
    (getFlycamInputs triggerAcc defaultFlycamChannels).get? 2 =
      some (-(7000 / 32768 : ℚ)) ∧
    flycamInput triggerAcc
      { type := ChannelType.axis, index := AXIS_TRIGGERLEFT, sign := 1 } =
      (7000 / 32767 : ℚ) := by
  refine ⟨?_, ?_, ?_⟩
  · simp [flycamInput, flycamAxisValue, h]
  · simp [getFlycamInputs, defaultFlycamChannels, flycamInput, flycamAxisValue,
      triggerAcc, clampS16, AXIS_LEFTX, AXIS_LEFTY, AXIS_RIGHTX, AXIS_RIGHTY,
      AXIS_TRIGGERLEFT, AXIS_TRIGGERRIGHT]
    norm_num
  · simp [flycamInput, flycamAxisValue, triggerAcc, clampS16,
      AXIS_TRIGGERLEFT, AXIS_TRIGGERRIGHT]

/-- C7 witness: the tied-trigger formula applied to the default rise
channel at the example accumulator state. -/
theorem flycam_trigger_inputs_witness :
    (riseChannel.index = AXIS_TRIGGERLEFT ∨
      riseChannel.index = AXIS_TRIGGERRIGHT) ∧
    (flycamInput triggerAcc riseChannel =
      (clampS16 ((triggerAcc 4 - triggerAcc 5) *
          (if riseChannel.index = AXIS_TRIGGERRIGHT then -1 else 1)) : ℚ) /
        (if 0 < clampS16 ((triggerAcc 4 - triggerAcc 5) *
            (if riseChannel.index = AXIS_TRIGGERRIGHT then -1 else 1))
          then 32767 else 32768) * (riseChannel.sign : ℚ) ∧
      (getFlycamInputs triggerAcc defaultFlycamChannels).get? 2 =
        some (-(7000 / 32768 : ℚ)) ∧
      flycamInput triggerAcc
        { type := ChannelType.axis, index := AXIS_TRIGGERLEFT, sign := 1 } =
        (7000 / 32767 : ℚ)) :=
  ⟨Or.inr rfl, flycam_trigger_inputs triggerAcc riseChannel (Or.inr rfl)⟩

/-- Helper: a mask disjoint from `y` sees only `x` inside `x ||| y`. -/
theorem land_subset_lor (m x y : Nat) (h : m &&& y = 0) : m &&& (x ||| y) = m &&& x := by
  apply Nat.eq_of_testBit_eq
  intro i
  have hy := congrArg (fun n => Nat.testBit n i) h
  simp only [Nat.testBit_land, Nat.testBit_lor, Nat.zero_testBit] at hy ⊢
  cases hm : m.testBit i <;> cases hyy : y.testBit i <;> simp_all

/-- Helper: the OR of two values inside a mask stays inside it. -/
theorem lor_land_subsets (x y m : Nat) (hx : x &&& m = x) (hy : y &&& m = y) :
    (x ||| y) &&& m = x ||| y := by
  apply Nat.eq_of_testBit_eq
  intro i
  have hx2 := congrArg (fun n => Nat.testBit n i) hx
  have hy2 := congrArg (fun n => Nat.testBit n i) hy
  simp only [Nat.testBit_land, Nat.testBit_lor] at hx2 hy2 ⊢
  cases hmm : m.testBit i <;> simp_all

/-- Helper: values inside disjoint masks are disjoint. -/
theorem land_eq_zero_of_subsets (a b ma mb : Nat)
    (ha : a &&& ma = a) (hb : b &&& mb = b) (hm : ma &&& mb = 0) : a &&& b = 0 := by
  apply Nat.eq_of_testBit_eq
  intro i
  have ha2 := congrArg (fun n => Nat.testBit n i) ha
  have hb2 := congrArg (fun n => Nat.testBit n i) hb
  have hm2 := congrArg (fun n => Nat.testBit n i) hm
  simp only [Nat.testBit_land, Nat.zero_testBit] at ha2 hb2 hm2 ⊢
  cases h1 : a.testBit i <;> cases h2 : b.testBit i <;>
    cases h3 : ma.testBit i <;> cases h4 : mb.testBit i <;> simp_all

/-- Helper: a flags fold that only ORs in masks inside `mask` stays
inside `mask`. -/
theorem foldl_lor_subset (cond : Nat × InputChannel → Bool) (mask : Nat) :
    ∀ (entries : List (Nat × InputChannel)) (acc : Nat),
      acc &&& mask = acc → (∀ e ∈ entries, e.1 &&& mask = e.1) →
      (entries.foldl (fun flags e => if cond e then flags ||| e.1 else flags) acc) &&& mask =
        entries.foldl (fun flags e => if cond e then flags ||| e.1 else flags) acc := by
  intro entries
  induction entries with
  | nil => exact fun acc hacc _ => hacc
  | cons e rest ih =>
      intro acc hacc hall
      simp only [List.foldl_cons]
      apply ih
      · cases hc : cond e
        · simpa [hc] using hacc
        · simp only [hc, if_true]
          exact lor_land_subsets _ _ _ hacc (hall e (by simp))
      · intro e2 he2
        exact hall e2 (by simp [he2])

/-- Helper: the axes fold of `computeStateFromFlags` only looks at the
flags through the per-row subset tests, so two flag values giving the
same tests give the same axes. -/
theorem stateAxes_congr (F A : Nat) :
    ∀ (analog : List (Nat × InputChannel)) (acc : List Int),
      (∀ e ∈ analog, e.1 &&& F = e.1 &&& A) →
      analog.foldl (fun axes e =>
        if isMappedType e.2.type && (e.1 &&& F == e.1) then
          axes.set e.2.index (if intPos e.2.sign then 32767 else -32768)
        else axes) acc =
      analog.foldl (fun axes e =>
        if isMappedType e.2.type && (e.1 &&& A == e.1) then
          axes.set e.2.index (if intPos e.2.sign then 32767 else -32768)
        else axes) acc := by
  intro analog
  induction analog with
  | nil => exact fun acc _ => rfl
  | cons e rest ih =>
      intro acc hall
      simp only [List.foldl_cons]
      rw [hall e (by simp)]
      exact ih _ (fun e2 he2 => hall e2 (by simp [he2]))

/-- Helper: same as `stateAxes_congr` for the buttons fold. -/
theorem stateButtons_congr (F B : Nat) :
    ∀ (binary : List (Nat × InputChannel)) (acc : Nat),
      (∀ e ∈ binary, e.1 &&& F = e.1 &&& B) →
      binary.foldl (fun buttons e =>
        if isMappedType e.2.type && (e.1 &&& F == e.1) then
          buttons ||| (1 <<< e.2.index) else buttons) acc =
      binary.foldl (fun buttons e =>
        if isMappedType e.2.type && (e.1 &&& B == e.1) then
          buttons ||| (1 <<< e.2.index) else buttons) acc := by
  intro binary
  induction binary with
  | nil => exact fun acc _ => rfl
  | cons e rest ih =>
      intro acc hall
      simp only [List.foldl_cons]
      rw [hall e (by simp)]
      exact ih _ (fun e2 he2 => hall e2 (by simp [he2]))

/-- Helper: `allOptionBool` is exhaustive. -/
theorem mem_allOptionBool (x : Option Bool) : x ∈ allOptionBool := by
  rcases x with _ | (_ | _) <;> decide

/-- Helper: the analog round trip holds on every one of the 243
activation combinations (checked by evaluation). -/
theorem analog_all_check :
    (allOptionBool.all fun a0 => allOptionBool.all fun a1 =>
      allOptionBool.all fun a2 => allOptionBool.all fun a3 =>
      allOptionBool.all fun a4 => analogCheck a0 a1 a2 a3 a4) = true := by
  decide!

/-- Helper: the analog half of the round trip. -/
theorem analog_round_trip (a0 a1 a2 a3 a4 : Option Bool) :
    analogFlags defaultAnalogEntries
      (stateAxesFromFlags defaultAnalogEntries
        (analogFlags defaultAnalogEntries (activationAxes a0 a1 a2 a3 a4))) =
    analogFlags defaultAnalogEntries (activationAxes a0 a1 a2 a3 a4) := by
  have h := analog_all_check
  rw [List.all_eq_true] at h
  have h := h a0 (mem_allOptionBool a0)
  rw [List.all_eq_true] at h
  have h := h a1 (mem_allOptionBool a1)
  rw [List.all_eq_true] at h
  have h := h a2 (mem_allOptionBool a2)
  rw [List.all_eq_true] at h
  have h := h a3 (mem_allOptionBool a3)
  rw [List.all_eq_true] at h
  have h := h a4 (mem_allOptionBool a4)
  simp only [analogCheck] at h
  exact eq_of_beq h

/-- Helper: the binary half of the round trip. -/
theorem binary_round_trip : ∀ (b0 b1 b2 b3 : Bool),
    binaryFlags defaultBinaryEntries
      (stateButtonsFromFlags defaultBinaryEntries
        (binaryFlags defaultBinaryEntries (activationButtons b0 b1 b2 b3))) =
    binaryFlags defaultBinaryEntries (activationButtons b0 b1 b2 b3) := by
  decide

/-- Helper: every analog mask lies inside `AMASK`. -/
theorem analog_masks_sub : ∀ e ∈ defaultAnalogEntries, e.1 &&& AMASK = e.1 := by
  decide

/-- Helper: every binary mask lies inside `BMASK`. -/
theorem binary_masks_sub : ∀ e ∈ defaultBinaryEntries, e.1 &&& BMASK = e.1 := by
  decide

/-- C8: for any subset of the mapped analog and binary actions set
active (each analog action inactive, positive or negative; each binary
action pressed or not), composing `computeFlagsFromState` then
`computeStateFromFlags` and reading the flags back reproduces exactly
the original active-bit set — under the default mapping with its
HACK-aliased control bits, the aliasing causes no loss because the
borrowed bits are distinct from every other used bit. -/
theorem translator_round_trip :
    ∀ (a0 a1 a2 a3 a4 : Option Bool) (b0 b1 b2 b3 : Bool),
      computeFlagsFromState defaultAnalogEntries defaultBinaryEntries
        (computeStateFromFlags defaultAnalogEntries defaultBinaryEntries
          (computeFlagsFromState defaultAnalogEntries defaultBinaryEntries
            (activationAxes a0 a1 a2 a3 a4) (activationButtons b0 b1 b2 b3))).1
        (computeStateFromFlags defaultAnalogEntries defaultBinaryEntries
          (computeFlagsFromState defaultAnalogEntries defaultBinaryEntries
            (activationAxes a0 a1 a2 a3 a4) (activationButtons b0 b1 b2 b3))).2 =
      computeFlagsFromState defaultAnalogEntries defaultBinaryEntries
        (activationAxes a0 a1 a2 a3 a4) (activationButtons b0 b1 b2 b3) := by
  intro a0 a1 a2 a3 a4 b0 b1 b2 b3
  have hA : analogFlags defaultAnalogEntries (activationAxes a0 a1 a2 a3 a4) &&& AMASK =
      analogFlags defaultAnalogEntries (activationAxes a0 a1 a2 a3 a4) :=
    foldl_lor_subset _ AMASK defaultAnalogEntries 0 rfl analog_masks_sub
  have hB : binaryFlags defaultBinaryEntries (activationButtons b0 b1 b2 b3) &&& BMASK =
      binaryFlags defaultBinaryEntries (activationButtons b0 b1 b2 b3) :=
    foldl_lor_subset _ BMASK defaultBinaryEntries 0 rfl binary_masks_sub
  have haxes : stateAxesFromFlags defaultAnalogEntries
      (computeFlagsFromState defaultAnalogEntries defaultBinaryEntries
        (activationAxes a0 a1 a2 a3 a4) (activationButtons b0 b1 b2 b3)) =
      stateAxesFromFlags defaultAnalogEntries
        (analogFlags defaultAnalogEntries (activationAxes a0 a1 a2 a3 a4)) := by
    apply stateAxes_congr
    intro e he
    have hz : e.1 &&& binaryFlags defaultBinaryEntries (activationButtons b0 b1 b2 b3) = 0 :=
      land_eq_zero_of_subsets e.1 _ AMASK BMASK (analog_masks_sub e he) hB (by decide)
    exact land_subset_lor e.1 _ _ hz
  have hbuttons : stateButtonsFromFlags defaultBinaryEntries
      (computeFlagsFromState defaultAnalogEntries defaultBinaryEntries
        (activationAxes a0 a1 a2 a3 a4) (activationButtons b0 b1 b2 b3)) =
      stateButtonsFromFlags defaultBinaryEntries
        (binaryFlags defaultBinaryEntries (activationButtons b0 b1 b2 b3)) := by
    apply stateButtons_congr
    intro e he
    have hz : e.1 &&& analogFlags defaultAnalogEntries (activationAxes a0 a1 a2 a3 a4) = 0 :=
      land_eq_zero_of_subsets e.1 _ BMASK AMASK (binary_masks_sub e he) hA (by decide)
    rw [computeFlagsFromState, Nat.lor_comm]
    exact land_subset_lor e.1 _ _ hz
  show analogFlags defaultAnalogEntries (stateAxesFromFlags defaultAnalogEntries _) |||
      binaryFlags defaultBinaryEntries (stateButtonsFromFlags defaultBinaryEntries _) = _
  rw [haxes, hbuttons, analog_round_trip, binary_round_trip]
  rfl

/-- Helper: a mapping state with zero mapped actions has zero mapped
flags (the flags only come from analog/binary bindings, which are all
unbound when the count is zero). -/
theorem mappedFlags_zero_of_count_zero (m : ManagerMappings)
    (h : mappedActionCount m = 0) : getMappedFlags m = 0 := by
  unfold mappedActionCount at h
  have h0 : (m.analogChannels 0).type = ChannelType.none := by
    have ht : (if (m.analogChannels 0).type ≠ ChannelType.none then 1 else 0) = 0 := by omega
    by_contra hc
    rw [if_pos hc] at ht
    exact one_ne_zero ht
  have h1 : (m.analogChannels 1).type = ChannelType.none := by
    have ht : (if (m.analogChannels 1).type ≠ ChannelType.none then 1 else 0) = 0 := by omega
    by_contra hc
    rw [if_pos hc] at ht
    exact one_ne_zero ht
  have h2 : (m.analogChannels 2).type = ChannelType.none := by
    have ht : (if (m.analogChannels 2).type ≠ ChannelType.none then 1 else 0) = 0 := by omega
    by_contra hc
    rw [if_pos hc] at ht
    exact one_ne_zero ht
  have h3 : (m.analogChannels 3).type = ChannelType.none := by
    have ht : (if (m.analogChannels 3).type ≠ ChannelType.none then 1 else 0) = 0 := by omega
    by_contra hc
    rw [if_pos hc] at ht
    exact one_ne_zero ht
  have h4 : (m.analogChannels 4).type = ChannelType.none := by
    have ht : (if (m.analogChannels 4).type ≠ ChannelType.none then 1 else 0) = 0 := by omega
    by_contra hc
    rw [if_pos hc] at ht
    exact one_ne_zero ht
  have h5 : (m.binaryChannels 0).type = ChannelType.none := by
    have ht : (if (m.binaryChannels 0).type ≠ ChannelType.none then 1 else 0) = 0 := by omega
    by_contra hc
    rw [if_pos hc] at ht
    exact one_ne_zero ht
  have h6 : (m.binaryChannels 1).type = ChannelType.none := by
    have ht : (if (m.binaryChannels 1).type ≠ ChannelType.none then 1 else 0) = 0 := by omega
    by_contra hc
    rw [if_pos hc] at ht
    exact one_ne_zero ht
  have h7 : (m.binaryChannels 2).type = ChannelType.none := by
    have ht : (if (m.binaryChannels 2).type ≠ ChannelType.none then 1 else 0) = 0 := by omega
    by_contra hc
    rw [if_pos hc] at ht
    exact one_ne_zero ht
  have h8 : (m.binaryChannels 3).type = ChannelType.none := by
    have ht : (if (m.binaryChannels 3).type ≠ ChannelType.none then 1 else 0) = 0 := by omega
    by_contra hc
    rw [if_pos hc] at ht
    exact one_ne_zero ht
  simp [getMappedFlags, h0, h1, h2, h3, h4, h5, h6, h7, h8]

/-- C9: `loadFromSettings` silently restores the built-in default
mappings when all three persisted mapping strings are absent/empty,
and also when, after restoring the persisted strings, zero actions end
up mapped to any channel. -/
theorem loadFromSettings_fallback (m : ManagerMappings) (a b f : List Char)
    (h : (a = [] ∧ b = [] ∧ f = []) ∨
      mappedActionCount
        (setFlycamMappings (setBinaryMappings (setAnalogMappings m a) b) f) = 0) :
    loadMappingsFromSettings m a b f = defaultManagerMappings := by
  rcases h with he | hc
  · simp [loadMappingsFromSettings, he]
  · by_cases he : a = [] ∧ b = [] ∧ f = []
    · simp [loadMappingsFromSettings, he]
    · simp [loadMappingsFromSettings, he, mappedFlags_zero_of_count_zero _ hc]

/-- C9 witness: restoring from the junk analog string `"x"` (and empty
binary/flycam strings) unbinds every action, and the defaults come
back. -/
theorem loadFromSettings_fallback_witness :
    mappedActionCount
      (setFlycamMappings (setBinaryMappings
        (setAnalogMappings defaultManagerMappings ("x".toList)) []) []) = 0 ∧
    loadMappingsFromSettings defaultManagerMappings ("x".toList) [] [] =
      defaultManagerMappings :=
  ⟨by decide, loadFromSettings_fallback defaultManagerMappings ("x".toList) [] []
    (Or.inr (by decide))⟩

end GameControl
